import Mathlib

/-!
Shallow embedding of `src/bin/index.js` of `create-vapor`, a Shopify theme
scaffolding CLI.  The script is a linear pipeline: parse arguments (or prompt
interactively), create the target directory, `git clone` a template, rewrite
`README.md` and `package.json`, optionally re-initialize git, optionally run
`npm install`.  We model the observable behaviour as a trace of effects plus
an exit code, parameterised by the command-line arguments, the interactive
answers, and an environment describing the outcome of external operations
(filesystem existence checks, clone success, manifest parseability).
-/

namespace CreateVapor

/-- JS `String.prototype.endsWith`, computed on the character list. -/
def jsEndsWith (s t : String) : Bool := t.data.isSuffixOf s.data

/-- JS `String.prototype.startsWith`, computed on the character list. -/
def jsStartsWith (s t : String) : Bool := t.data.isPrefixOf s.data

/-- Whitespace characters stripped by `String.prototype.trim`. -/
def isSpaceChar (c : Char) : Bool := c == ' ' || c == '\t' || c == '\n' || c == '\r'

/-- JS `String.prototype.trim`: strip leading and trailing whitespace. -/
def jsTrim (s : String) : String :=
  ⟨((s.data.dropWhile isSpaceChar).reverse.dropWhile isSpaceChar).reverse⟩

/-- Lowercase a single ASCII character (JS `toLowerCase` restricted to the
ASCII letters that occur in the compared literals). -/
def lowerChar (c : Char) : Char :=
  if 'A' ≤ c && c ≤ 'Z' then Char.ofNat (c.toNat + 32) else c

/-- JS `String.prototype.toLowerCase` on ASCII text. -/
def jsToLower (s : String) : String := ⟨s.data.map lowerChar⟩

/-- Fixed suffix that store URLs must have (line 57 / line 90 of the source). -/
def storeSuffix : String := ".myshopify.com"

/-- Default theme name used on empty interactive input (line 76). -/
def defaultTheme : String := "shopify-custom-theme"

/-- Default store URL used on empty interactive input (line 96). -/
def defaultStore : String := "example-store.myshopify.com"

/-- The `config` object of `package.json`: the `shopifyStore` field the tool
writes, plus any other fields (carried opaquely as key/value pairs). -/
structure ConfigObj where
  shopifyStore : Option String
  restConfig : List (String × String)
deriving Repr, DecidableEq

/-- The parsed `package.json` manifest: the `name` field, the optional
`config` object, and any other top-level fields carried opaquely. -/
structure Manifest where
  name : String
  config : Option ConfigObj
  restFields : List (String × String)
deriving Repr, DecidableEq

/-- The `package.json` rewrite of lines 188-197: set `name` to the theme
name; if `storeUrl` is non-empty (truthy), create `config` when absent and
set `config.shopifyStore` to the store URL. -/
def rewritePackage (m : Manifest) (themeName storeUrl : String) : Manifest :=
  let m1 : Manifest := { m with name := themeName }
  if storeUrl != "" then
    let cfg := m1.config.getD { shopifyStore := none, restConfig := [] }
    { m1 with config := some { cfg with shopifyStore := some storeUrl } }
  else m1

/-- Observable effects of the script, in program order. -/
inductive Effect where
  | printHelp : Effect
  | errorThemeMissing : Effect
  | errorStoreUrl : Effect
  | mkdir (dir : String) : Effect
  | clone (dir : String) : Effect
  | cloneFailed : Effect
  | writeReadme (dir : String) : Effect
  | writePackage (dir : String) (m : Manifest) : Effect
  | rewriteFailed : Effect
  | removeGitDir (dir : String) : Effect
  | gitInit (dir : String) : Effect
  | gitInitFailed : Effect
  | npmInstall (dir : String) : Effect
  | installFailed : Effect
deriving Repr, DecidableEq

/-- Effects that mutate the filesystem (directly or through a shelled-out
command that writes into the theme directory). -/
def isFsMutation : Effect → Bool
  | .mkdir _ => true
  | .clone _ => true
  | .writeReadme _ => true
  | .writePackage _ _ => true
  | .removeGitDir _ => true
  | .gitInit _ => true
  | .npmInstall _ => true
  | _ => false

/-- Effects that reach the network (`git clone` of the remote template,
`npm install` fetching packages). -/
def isNetworkAction : Effect → Bool
  | .clone _ => true
  | .npmInstall _ => true
  | _ => false

/-- Printed error messages. -/
def isErrorMsg : Effect → Bool
  | .errorThemeMissing => true
  | .errorStoreUrl => true
  | .cloneFailed => true
  | .rewriteFailed => true
  | .gitInitFailed => true
  | .installFailed => true
  | _ => false

/-- Steps of the pipeline that come after the clone: metadata rewrite,
git re-initialization, dependency install. -/
def isPostCloneStep : Effect → Bool
  | .writeReadme _ => true
  | .writePackage _ _ => true
  | .rewriteFailed => true
  | .removeGitDir _ => true
  | .gitInit _ => true
  | .gitInitFailed => true
  | .npmInstall _ => true
  | .installFailed => true
  | _ => false

/-- Git-step effects: deleting the `.git` directory, or running the combined
`git init && git add . && git commit` command (lines 213-228). -/
def isGitStep : Effect → Bool
  | .removeGitDir _ => true
  | .gitInit _ => true
  | .gitInitFailed => true
  | _ => false

/-- The configuration record collected by the input phase:
`{themeName, storeUrl, initGit, installDeps}` (lines 34-37). -/
structure Config where
  themeName : String
  storeUrl : String
  initGit : Bool
  installDeps : Bool
deriving Repr, DecidableEq

/-- Interactive answers: one answer for the theme-name prompt, a stream of
answers for the (re-prompting) store-URL prompt, one answer each for the
git and install prompts. -/
structure Answers where
  themeAnswer : String
  storeAnswers : List String
  gitAnswer : String
  installAnswer : String
deriving Repr, DecidableEq

/-- Environment: outcomes of external checks and commands. -/
structure Env where
  dirExists : Bool
  cloneSucceeds : Bool
  readmeExists : Bool
  packageExists : Bool
  packageParses : Bool
  packageManifest : Manifest
  gitDirExists : Bool
  gitInitSucceeds : Bool
  installSucceeds : Bool
deriving Repr, DecidableEq

/-- `args.includes("--help") || args.includes("-h")` (line 10). -/
def helpFlag (args : List String) : Bool :=
  args.contains "--help" || args.contains "-h"

/-- The characters after the first `=`, when one occurs. -/
def afterFirstEq : List Char → Option (List Char)
  | [] => none
  | c :: cs => if c == '=' then some cs else afterFirstEq cs

/-- The characters up to (excluding) the next `=`. -/
def takeUntilEq : List Char → List Char
  | [] => []
  | c :: cs => if c == '=' then [] else c :: takeUntilEq cs

/-- `arg.split("=")[1]`: the portion between the first and second `=`
(the whole remainder when there is a single `=`); the undefined value of a
`=`-free argument is modelled as `""` (every caller guards with a prefix
check that contains `=`). -/
def splitSecond (arg : String) : String :=
  match afterFirstEq arg.data with
  | none => ""
  | some cs => ⟨takeUntilEq cs⟩

/-- One step of the `args.forEach` flag parser of lines 46-54. -/
def applyArg (c : Config) (arg : String) : Config :=
  if jsStartsWith arg "--store=" || jsStartsWith arg "-s=" then
    { c with storeUrl := splitSecond arg }
  else if jsStartsWith arg "--git=" || jsStartsWith arg "-g=" then
    { c with initGit := jsToLower (splitSecond arg) == "true" }
  else if jsStartsWith arg "--install=" || jsStartsWith arg "-i=" then
    { c with installDeps := jsToLower (splitSecond arg) == "true" }
  else c

/-- The configuration produced by the non-interactive flag parse: initial
values `storeUrl = ""`, `initGit = true`, `installDeps = true` with
`themeName = args[0]`, folded over all arguments. -/
def parsedConfig (args : List String) : Config :=
  args.foldl applyArg
    { themeName := args.headD "", storeUrl := "", initGit := true,
      installDeps := true }

/-- The theme-name prompt (lines 71-81): trimmed answer, or the default on
empty input. -/
def promptThemeName (answer : String) : String :=
  if jsTrim answer == "" then defaultTheme else jsTrim answer

/-- The store-URL prompt (lines 84-101): re-prompts while the trimmed answer
is non-empty and lacks the suffix; on an empty answer substitutes the
default; returns the number of prompts issued together with the resulting
store URL, or `none` when the answer stream runs out (the script would keep
prompting). -/
def promptStoreUrl : List String → Option (Nat × String)
  | [] => none
  | answer :: rest =>
    let url := jsTrim answer
    if url != "" && !(jsEndsWith url storeSuffix) then
      match promptStoreUrl rest with
      | some (n, r) => some (n + 1, r)
      | none => none
    else
      some (1, if url == "" then defaultStore else url)

/-- The Y/n prompts (lines 104-127): the flag is true exactly when the
trimmed, lowercased answer is not the single letter `n`. -/
def parseYesNo (answer : String) : Bool :=
  jsToLower (jsTrim answer) != "n"

/-- The re-prompt condition of the store-URL prompt (line 90): the trimmed
answer is non-empty and lacks the suffix. -/
def isInvalidStoreAnswer (answer : String) : Bool :=
  jsTrim answer != "" && !(jsEndsWith (jsTrim answer) storeSuffix)

/-- Result of the input-collection phase. -/
inductive CollectResult where
  | fail (tr : List Effect) (code : Nat)
  | blocked
  | ok (cfg : Config)
deriving Repr, DecidableEq

/-- Input collection (lines 32-140): non-interactive parsing with its two
fatal checks, or the four interactive prompts. -/
def collectConfig (args : List String) (ans : Answers) : CollectResult :=
  if args.contains "--non-interactive" then
    if args.headD "" == "" then .fail [.errorThemeMissing] 1
    else
      let cfg := parsedConfig args
      if cfg.storeUrl != "" && !(jsEndsWith cfg.storeUrl storeSuffix) then
        .fail [.errorStoreUrl] 1
      else .ok cfg
  else
    match promptStoreUrl ans.storeAnswers with
    | none => .blocked
    | some (_, url) =>
      .ok { themeName := promptThemeName ans.themeAnswer,
            storeUrl := url,
            initGit := parseYesNo ans.gitAnswer,
            installDeps := parseYesNo ans.installAnswer }

/-- The effect trace of the pipeline after input collection (lines 142-257):
mkdir unless the directory exists, clone (fatal on failure), best-effort
metadata rewrite, optional git re-init, optional install. -/
def pipelineTrace (cfg : Config) (env : Env) : List Effect :=
  let t := cfg.themeName
  let cloneTr := (if env.dirExists then [] else [.mkdir t]) ++ [.clone t]
  if !env.cloneSucceeds then cloneTr ++ [.cloneFailed]
  else
    let readmeTr : List Effect := if env.readmeExists then [.writeReadme t] else []
    let pkgTr : List Effect :=
      if env.packageExists then
        if env.packageParses then
          [.writePackage t (rewritePackage env.packageManifest t cfg.storeUrl)]
        else [.rewriteFailed]
      else []
    let gitTr : List Effect :=
      if cfg.initGit then
        (if env.gitDirExists then [.removeGitDir t] else []) ++ [.gitInit t] ++
          (if env.gitInitSucceeds then [] else [.gitInitFailed])
      else []
    let instTr : List Effect :=
      if cfg.installDeps then
        [.npmInstall t] ++ (if env.installSucceeds then [] else [.installFailed])
      else []
    cloneTr ++ readmeTr ++ pkgTr ++ gitTr ++ instTr

/-- The exit code of the pipeline: 1 on clone failure (line 167), 0 on
normal termination (every other failure is non-fatal). -/
def pipelineExit (env : Env) : Nat :=
  if !env.cloneSucceeds then 1 else 0

/-- The whole script: help short-circuits with exit 0; otherwise collect the
configuration and run the pipeline.  `none` means the interactive store-URL
prompt never received a valid or empty answer (the script keeps prompting). -/
def run (args : List String) (ans : Answers) (env : Env) :
    Option (List Effect × Nat) :=
  if helpFlag args then some ([.printHelp], 0)
  else
    match collectConfig args ans with
    | .fail tr c => some (tr, c)
    | .blocked => none
    | .ok cfg => some (pipelineTrace cfg env, pipelineExit env)

/-- A concrete environment for witnesses. -/
def sampleEnv : Env :=
  { dirExists := false, cloneSucceeds := true, readmeExists := true,
    packageExists := true, packageParses := true,
    packageManifest := { name := "starter", config := none, restFields := [] },
    gitDirExists := true, gitInitSucceeds := true, installSucceeds := true }

/-- Concrete answers for witnesses. -/
def sampleAnswers : Answers :=
  { themeAnswer := "my-theme", storeAnswers := ["shop.myshopify.com"],
    gitAnswer := "y", installAnswer := "y" }

/-- An environment in which the clone command fails. -/
def failCloneEnv : Env :=
  { sampleEnv with cloneSucceeds := false }

/-- An environment in which `package.json` exists but does not parse. -/
def noParseEnv : Env :=
  { sampleEnv with packageParses := false }

/-- Interactive answers with a whitespace-only theme name and `n` answers to
both Y/n prompts. -/
def emptyThemeAnswers : Answers :=
  { themeAnswer := "   ", storeAnswers := [""], gitAnswer := "n",
    installAnswer := "n" }

/-- Interactive answers exercising the Y/n parsing: `no` and an upper-case
`N`. -/
def ynAnswers : Answers :=
  { themeAnswer := "t", storeAnswers := [""], gitAnswer := "no",
    installAnswer := " N " }

/-! ### Helper lemmas about the run function and the collection phase -/

theorem run_help (args : List String) (ans : Answers) (env : Env)
    (hh : helpFlag args = true) :
    run args ans env = some ([.printHelp], 0) := by
  simp [run, hh]

theorem run_ok (args : List String) (ans : Answers) (env : Env) (cfg : Config)
    (hh : helpFlag args = false) (hcc : collectConfig args ans = .ok cfg) :
    run args ans env = some (pipelineTrace cfg env, pipelineExit env) := by
  simp [run, hh, hcc]

theorem run_fail (args : List String) (ans : Answers) (env : Env)
    (tr : List Effect) (c : Nat)
    (hh : helpFlag args = false) (hcc : collectConfig args ans = .fail tr c) :
    run args ans env = some (tr, c) := by
  simp [run, hh, hcc]

theorem run_some_cases (args : List String) (ans : Answers) (env : Env)
    (tr : List Effect) (c : Nat) (hr : run args ans env = some (tr, c)) :
    (helpFlag args = true ∧ tr = [.printHelp] ∧ c = 0) ∨
    (helpFlag args = false ∧ collectConfig args ans = .fail tr c) ∨
    (helpFlag args = false ∧ ∃ cfg, collectConfig args ans = .ok cfg ∧
      tr = pipelineTrace cfg env ∧ c = pipelineExit env) := by
  unfold run at hr
  split at hr
  · rename_i hh
    simp at hr
    exact Or.inl ⟨hh, hr.1.symm, hr.2.symm⟩
  · rename_i hh
    rw [Bool.not_eq_true] at hh
    split at hr
    · rename_i tr' c' hcc
      simp at hr
      exact Or.inr (Or.inl ⟨hh, hr.1 ▸ hr.2 ▸ hcc⟩)
    · exact absurd hr (by simp)
    · rename_i cfg hcc
      simp at hr
      exact Or.inr (Or.inr ⟨hh, cfg, hcc, hr.1.symm, hr.2.symm⟩)

theorem collectConfig_fail_shape (args : List String) (ans : Answers)
    (tr : List Effect) (c : Nat) (h : collectConfig args ans = .fail tr c) :
    (tr = [.errorThemeMissing] ∨ tr = [.errorStoreUrl]) ∧ c = 1 := by
  unfold collectConfig at h
  split at h
  · split at h
    · simp at h
      exact ⟨Or.inl h.1.symm, h.2.symm⟩
    · simp only [] at h
      split at h
      · simp at h
        exact ⟨Or.inr h.1.symm, h.2.symm⟩
      · exact absurd h (by simp)
  · split at h <;> exact absurd h (by simp)

theorem collectConfig_ok_interactive (args : List String) (ans : Answers)
    (cfg : Config) (hni : args.contains "--non-interactive" = false)
    (h : collectConfig args ans = .ok cfg) :
    ∃ n url, promptStoreUrl ans.storeAnswers = some (n, url) ∧
      cfg = { themeName := promptThemeName ans.themeAnswer, storeUrl := url,
              initGit := parseYesNo ans.gitAnswer,
              installDeps := parseYesNo ans.installAnswer } := by
  unfold collectConfig at h
  rw [hni] at h
  simp only [Bool.false_eq_true, if_false] at h
  split at h
  · exact absurd h (by simp)
  · rename_i n url hp
    simp at h
    exact ⟨n, url, hp, h.symm⟩

theorem pipelineTrace_clone_fail (cfg : Config) (env : Env)
    (hc : env.cloneSucceeds = false) :
    pipelineTrace cfg env =
      (if env.dirExists then [] else [.mkdir cfg.themeName]) ++
        [.clone cfg.themeName, .cloneFailed] := by
  simp [pipelineTrace, hc]

theorem pipelineExit_clone_fail (env : Env) (hc : env.cloneSucceeds = false) :
    pipelineExit env = 1 := by
  simp [pipelineExit, hc]

theorem pipelineExit_success (env : Env) (hc : env.cloneSucceeds = true) :
    pipelineExit env = 0 := by
  simp [pipelineExit, hc]

theorem pipelineTrace_success_shape (cfg : Config) (env : Env)
    (hc : env.cloneSucceeds = true) :
    pipelineTrace cfg env =
      (if env.dirExists then [] else [.mkdir cfg.themeName]) ++
        ([.clone cfg.themeName] ++
        ((if env.readmeExists then [.writeReadme cfg.themeName] else []) ++
        ((if env.packageExists then
           if env.packageParses then
             [.writePackage cfg.themeName
                (rewritePackage env.packageManifest cfg.themeName cfg.storeUrl)]
           else [.rewriteFailed]
         else []) ++
        ((if cfg.initGit then
           (if env.gitDirExists then [.removeGitDir cfg.themeName] else []) ++
             ([.gitInit cfg.themeName] ++
             (if env.gitInitSucceeds then [] else [.gitInitFailed]))
         else []) ++
        (if cfg.installDeps then
           .npmInstall cfg.themeName ::
             (if env.installSucceeds then [] else [.installFailed])
         else []))))) := by
  simp [pipelineTrace, hc]

theorem mem_ite_list {b : Bool} {l1 l2 : List Effect} {e : Effect}
    (h : e ∈ if b then l1 else l2) :
    (b = true ∧ e ∈ l1) ∨ (b = false ∧ e ∈ l2) := by
  by_cases hb : b = true
  · rw [if_pos hb] at h
    exact Or.inl ⟨hb, h⟩
  · rw [if_neg hb] at h
    exact Or.inr ⟨by simpa using hb, h⟩

/-- Every effect of the pipeline trace, by case, together with the condition
under which that effect is emitted. -/
theorem mem_pipelineTrace (cfg : Config) (env : Env) (e : Effect)
    (he : e ∈ pipelineTrace cfg env) :
    (env.dirExists = false ∧ e = .mkdir cfg.themeName) ∨
    e = .clone cfg.themeName ∨
    (env.cloneSucceeds = false ∧ e = .cloneFailed) ∨
    (env.cloneSucceeds = true ∧ env.readmeExists = true ∧
      e = .writeReadme cfg.themeName) ∨
    (env.cloneSucceeds = true ∧ env.packageExists = true ∧
      env.packageParses = true ∧
      e = .writePackage cfg.themeName
        (rewritePackage env.packageManifest cfg.themeName cfg.storeUrl)) ∨
    (env.cloneSucceeds = true ∧ env.packageExists = true ∧
      env.packageParses = false ∧ e = .rewriteFailed) ∨
    (env.cloneSucceeds = true ∧ cfg.initGit = true ∧
      ((env.gitDirExists = true ∧ e = .removeGitDir cfg.themeName) ∨
        e = .gitInit cfg.themeName ∨
        (env.gitInitSucceeds = false ∧ e = .gitInitFailed))) ∨
    (env.cloneSucceeds = true ∧ cfg.installDeps = true ∧
      (e = .npmInstall cfg.themeName ∨
        (env.installSucceeds = false ∧ e = .installFailed))) := by
  by_cases hc : env.cloneSucceeds
  · rw [pipelineTrace_success_shape cfg env hc] at he
    rw [List.mem_append] at he
    rcases he with he | he
    · rcases mem_ite_list he with ⟨_, he⟩ | ⟨hd, he⟩
      · simp at he
      · simp at he
        subst he
        exact Or.inl ⟨hd, rfl⟩
    · rw [List.mem_append] at he
      rcases he with he | he
      · simp at he
        subst he
        exact Or.inr (Or.inl rfl)
      · rw [List.mem_append] at he
        rcases he with he | he
        · rcases mem_ite_list he with ⟨hre, he⟩ | ⟨_, he⟩
          · simp at he
            subst he
            exact Or.inr (Or.inr (Or.inr (Or.inl ⟨hc, hre, rfl⟩)))
          · simp at he
        · rw [List.mem_append] at he
          rcases he with he | he
          · rcases mem_ite_list he with ⟨hpe, he⟩ | ⟨_, he⟩
            · rcases mem_ite_list he with ⟨hpp, he⟩ | ⟨hpp, he⟩
              · simp at he
                subst he
                exact Or.inr (Or.inr (Or.inr (Or.inr
                  (Or.inl ⟨hc, hpe, hpp, rfl⟩))))
              · simp at he
                subst he
                exact Or.inr (Or.inr (Or.inr (Or.inr (Or.inr
                  (Or.inl ⟨hc, hpe, hpp, rfl⟩)))))
            · simp at he
          · rw [List.mem_append] at he
            rcases he with he | he
            · rcases mem_ite_list he with ⟨hgit, he⟩ | ⟨_, he⟩
              · refine Or.inr (Or.inr (Or.inr (Or.inr (Or.inr (Or.inr
                  (Or.inl ⟨hc, hgit, ?_⟩))))))
                rw [List.mem_append, List.mem_append] at he
                rcases he with he | he | he
                · rcases mem_ite_list he with ⟨hgd, he⟩ | ⟨_, he⟩
                  · simp at he
                    subst he
                    exact Or.inl ⟨hgd, rfl⟩
                  · simp at he
                · simp at he
                  subst he
                  exact Or.inr (Or.inl rfl)
                · rcases mem_ite_list he with ⟨_, he⟩ | ⟨hgs, he⟩
                  · simp at he
                  · simp at he
                    subst he
                    exact Or.inr (Or.inr ⟨hgs, rfl⟩)
              · simp at he
            · rcases mem_ite_list he with ⟨hinst, he⟩ | ⟨_, he⟩
              · refine Or.inr (Or.inr (Or.inr (Or.inr (Or.inr (Or.inr
                  (Or.inr ⟨hc, hinst, ?_⟩))))))
                rw [List.mem_cons] at he
                rcases he with he | he
                · exact Or.inl he
                · rcases mem_ite_list he with ⟨_, he⟩ | ⟨his, he⟩
                  · simp at he
                  · simp at he
                    subst he
                    exact Or.inr ⟨his, rfl⟩
              · simp at he
  · rw [Bool.not_eq_true] at hc
    rw [pipelineTrace_clone_fail cfg env hc] at he
    rw [List.mem_append] at he
    rcases he with he | he
    · rcases mem_ite_list he with ⟨_, he⟩ | ⟨hd, he⟩
      · simp at he
      · simp at he
        subst he
        exact Or.inl ⟨hd, rfl⟩
    · simp at he
      rcases he with he | he <;> subst he
      · exact Or.inr (Or.inl rfl)
      · exact Or.inr (Or.inr (Or.inl ⟨hc, rfl⟩))

/-! ### Claim theorems -/

/-- C5: for every argument list containing `--help` or `-h`, the process
prints usage, exits with code 0, and performs no filesystem or network
action regardless of the other arguments. -/
theorem help_short_circuits (args : List String) (ans : Answers) (env : Env)
    (h : args.contains "--help" = true ∨ args.contains "-h" = true) :
    ∃ tr, run args ans env = some (tr, 0) ∧ Effect.printHelp ∈ tr ∧
      ∀ e ∈ tr, isFsMutation e = false ∧ isNetworkAction e = false := by
  have hh : helpFlag args = true := by
    unfold helpFlag
    rcases h with h | h <;> rw [h] <;> simp
  refine ⟨[.printHelp], run_help args ans env hh, by simp, ?_⟩
  intro e he
  simp at he
  subst he
  exact ⟨rfl, rfl⟩

/-- Witness for C5 at `["--help", "bad", "--non-interactive"]`. -/
theorem help_short_circuits_witness :
    ∃ tr, run ["--help", "bad", "--non-interactive"] sampleAnswers sampleEnv
        = some (tr, 0) ∧ Effect.printHelp ∈ tr ∧
      ∀ e ∈ tr, isFsMutation e = false ∧ isNetworkAction e = false :=
  help_short_circuits ["--help", "bad", "--non-interactive"] sampleAnswers
    sampleEnv (Or.inl rfl)

/-- C4: in non-interactive mode, when the theme name is missing from the
command line (`args[0]` is absent or empty), the process reports an error
and exits with code 1. -/
theorem missing_theme_name_fails (args : List String) (ans : Answers)
    (env : Env) (hh : helpFlag args = false)
    (hni : args.contains "--non-interactive" = true)
    (ht : args.headD "" = "") :
    run args ans env = some ([Effect.errorThemeMissing], 1) ∧
      isErrorMsg .errorThemeMissing = true := by
  refine ⟨run_fail args ans env _ _ hh ?_, rfl⟩
  unfold collectConfig
  rw [hni, ht]
  simp

/-- Witness for C4 at `["", "--non-interactive"]` (an explicit empty first
argument). -/
theorem missing_theme_name_fails_witness :
    run ["", "--non-interactive"] sampleAnswers sampleEnv
        = some ([Effect.errorThemeMissing], 1) ∧
      isErrorMsg .errorThemeMissing = true :=
  missing_theme_name_fails ["", "--non-interactive"] sampleAnswers sampleEnv
    rfl rfl rfl

/-- C1: in non-interactive mode, a non-empty store URL parsed from
`--store=`/`-s=` that does not end with `.myshopify.com` makes the process
print an error and exit with code 1, with no filesystem mutation in the
trace — in particular no `mkdir` of the theme directory. -/
theorem invalid_store_url_fails_before_fs (args : List String) (ans : Answers)
    (env : Env) (hh : helpFlag args = false)
    (hni : args.contains "--non-interactive" = true)
    (hs : (parsedConfig args).storeUrl ≠ "")
    (hbad : jsEndsWith (parsedConfig args).storeUrl storeSuffix = false) :
    ∃ tr, run args ans env = some (tr, 1) ∧
      (∃ e ∈ tr, isErrorMsg e = true) ∧
      ∀ e ∈ tr, isFsMutation e = false := by
  by_cases ht : args.headD "" = ""
  · refine ⟨[.errorThemeMissing], run_fail args ans env _ _ hh ?_, ?_, ?_⟩
    · unfold collectConfig
      rw [hni, ht]
      simp
    · exact ⟨.errorThemeMissing, by simp, rfl⟩
    · intro e he
      simp at he
      subst he
      rfl
  · refine ⟨[.errorStoreUrl], run_fail args ans env _ _ hh ?_, ?_, ?_⟩
    · unfold collectConfig
      rw [hni]
      rw [if_pos rfl]
      rw [if_neg (by simpa using ht)]
      simp only []
      rw [if_pos (by simp [bne_iff_ne, hs, hbad])]
    · exact ⟨.errorStoreUrl, by simp, rfl⟩
    · intro e he
      simp at he
      subst he
      rfl

/-- Witness for C1 at `["t", "--non-interactive", "--store=bad.example.com"]`. -/
theorem invalid_store_url_fails_before_fs_witness :
    ∃ tr, run ["t", "--non-interactive", "--store=bad.example.com"]
        sampleAnswers sampleEnv = some (tr, 1) ∧
      (∃ e ∈ tr, isErrorMsg e = true) ∧
      ∀ e ∈ tr, isFsMutation e = false :=
  invalid_store_url_fails_before_fs
    ["t", "--non-interactive", "--store=bad.example.com"] sampleAnswers
    sampleEnv rfl rfl (by decide) (by decide)

/-! ### Further helper lemmas -/

theorem collectConfig_interactive_not_fail (args : List String) (ans : Answers)
    (tr : List Effect) (c : Nat)
    (hni : args.contains "--non-interactive" = false)
    (h : collectConfig args ans = .fail tr c) : False := by
  unfold collectConfig at h
  rw [hni] at h
  simp only [Bool.false_eq_true, if_false] at h
  split at h <;> simp at h

theorem jsEndsWith_storeSuffix_ne_empty (s : String)
    (h : jsEndsWith s storeSuffix = true) : s ≠ "" := by
  intro he
  subst he
  exact absurd h (by decide)

theorem rewritePackage_sets_fields (m : Manifest) (t u : String)
    (hu : u ≠ "") :
    (rewritePackage m t u).name = t ∧
    ∃ co, (rewritePackage m t u).config = some co ∧
      co.shopifyStore = some u := by
  simp only [rewritePackage]
  rw [if_pos (bne_iff_ne.mpr hu)]
  exact ⟨rfl, _, rfl, rfl⟩

theorem mkdir_mem_pipelineTrace (cfg : Config) (env : Env)
    (hd : env.dirExists = false) :
    Effect.mkdir cfg.themeName ∈ pipelineTrace cfg env := by
  by_cases hc : env.cloneSucceeds
  · rw [pipelineTrace_success_shape cfg env hc, hd]
    simp
  · rw [Bool.not_eq_true] at hc
    rw [pipelineTrace_clone_fail cfg env hc, hd]
    simp

theorem rewriteFailed_mem_pipelineTrace (cfg : Config) (env : Env)
    (hc : env.cloneSucceeds = true) (hpe : env.packageExists = true)
    (hpp : env.packageParses = false) :
    Effect.rewriteFailed ∈ pipelineTrace cfg env := by
  rw [pipelineTrace_success_shape cfg env hc, hpe, hpp]
  simp

theorem gitInit_mem_pipelineTrace (cfg : Config) (env : Env)
    (hc : env.cloneSucceeds = true) (hg : cfg.initGit = true) :
    Effect.gitInit cfg.themeName ∈ pipelineTrace cfg env := by
  rw [pipelineTrace_success_shape cfg env hc, hg]
  simp

theorem npmInstall_mem_pipelineTrace (cfg : Config) (env : Env)
    (hc : env.cloneSucceeds = true) (hi : cfg.installDeps = true) :
    Effect.npmInstall cfg.themeName ∈ pipelineTrace cfg env := by
  rw [pipelineTrace_success_shape cfg env hc, hi]
  simp

theorem run_ok_components (args : List String) (ans : Answers) (env : Env)
    (cfg : Config) (tr : List Effect) (c : Nat)
    (hh : helpFlag args = false)
    (hcc : collectConfig args ans = .ok cfg)
    (hr : run args ans env = some (tr, c)) :
    tr = pipelineTrace cfg env ∧ c = pipelineExit env := by
  have hrun := run_ok args ans env cfg hh hcc
  rw [hr] at hrun
  simp at hrun
  exact hrun

/-- C2: if the clone command exits non-zero, the process exits with code 1
and no later step appears in the trace: no readme or manifest rewrite, no
version-control reinitialization, and no dependency install. -/
theorem clone_failure_is_fatal (args : List String) (ans : Answers)
    (env : Env) (tr : List Effect) (c : Nat) (d : String)
    (hc : env.cloneSucceeds = false)
    (hr : run args ans env = some (tr, c))
    (hclone : Effect.clone d ∈ tr) :
    c = 1 ∧ ∀ e ∈ tr, isPostCloneStep e = false := by
  rcases run_some_cases args ans env tr c hr with ⟨_, htr, _⟩ | ⟨_, hcc⟩ |
    ⟨_, cfg, _, htr, hcode⟩
  · subst htr
    simp at hclone
  · rcases collectConfig_fail_shape _ _ _ _ hcc with ⟨htr | htr, _⟩ <;>
      subst htr <;> simp at hclone
  · subst htr
    refine ⟨hcode.trans (pipelineExit_clone_fail env hc), ?_⟩
    intro e he
    rw [pipelineTrace_clone_fail cfg env hc] at he
    rw [List.mem_append] at he
    rcases he with he | he
    · rcases mem_ite_list he with ⟨_, he⟩ | ⟨_, he⟩
      · simp at he
      · simp at he
        subst he
        rfl
    · simp at he
      rcases he with he | he <;> subst he <;> rfl

/-- Witness for C2: a failed clone of theme `t` exits 1 having run nothing
past the clone. -/
theorem clone_failure_is_fatal_witness :
    (1 : Nat) = 1 ∧
      ∀ e ∈ [Effect.mkdir "t", Effect.clone "t", Effect.cloneFailed],
        isPostCloneStep e = false :=
  clone_failure_is_fatal ["t", "--non-interactive"] sampleAnswers failCloneEnv
    [Effect.mkdir "t", Effect.clone "t", Effect.cloneFailed] 1 "t" rfl rfl
    (by simp)

/-- C3: when a store URL ending with `.myshopify.com` reaches the
metadata-rewrite step with a parseable `package.json`, the manifest written
back has `config.shopifyStore` equal to exactly that URL and `name` equal to
the theme name. -/
theorem manifest_rewrite_sets_store_and_name (args : List String)
    (ans : Answers) (env : Env) (cfg : Config)
    (hh : helpFlag args = false)
    (hcc : collectConfig args ans = .ok cfg)
    (hsuf : jsEndsWith cfg.storeUrl storeSuffix = true)
    (hcs : env.cloneSucceeds = true)
    (hpe : env.packageExists = true)
    (hpp : env.packageParses = true) :
    ∃ tr m, run args ans env = some (tr, 0) ∧
      Effect.writePackage cfg.themeName m ∈ tr ∧
      m.name = cfg.themeName ∧
      ∃ co, m.config = some co ∧ co.shopifyStore = some cfg.storeUrl := by
  have hne : cfg.storeUrl ≠ "" := jsEndsWith_storeSuffix_ne_empty _ hsuf
  obtain ⟨hname, co, hco, hstore⟩ :=
    rewritePackage_sets_fields env.packageManifest cfg.themeName
      cfg.storeUrl hne
  have hrun := run_ok args ans env cfg hh hcc
  rw [pipelineExit_success env hcs] at hrun
  refine ⟨pipelineTrace cfg env,
    rewritePackage env.packageManifest cfg.themeName cfg.storeUrl, hrun, ?_,
    hname, co, hco, hstore⟩
  rw [pipelineTrace_success_shape cfg env hcs, hpe, hpp]
  simp

/-- Witness for C3 with `--store=foo.myshopify.com` in non-interactive
mode. -/
theorem manifest_rewrite_sets_store_and_name_witness :
    ∃ tr m, run ["my-theme", "--non-interactive",
        "--store=foo.myshopify.com"] sampleAnswers sampleEnv
        = some (tr, 0) ∧
      Effect.writePackage "my-theme" m ∈ tr ∧
      m.name = "my-theme" ∧
      ∃ co, m.config = some co ∧ co.shopifyStore = some "foo.myshopify.com" :=
  manifest_rewrite_sets_store_and_name
    ["my-theme", "--non-interactive", "--store=foo.myshopify.com"]
    sampleAnswers sampleEnv
    { themeName := "my-theme", storeUrl := "foo.myshopify.com",
      initGit := true, installDeps := true }
    rfl rfl rfl rfl rfl rfl

/-- C6: when `initGit` is false, no git-step effect occurs: the `.git`
directory is never deleted, and the `git init`/`add`/`commit` command is
never invoked. -/
theorem no_git_steps_when_disabled (args : List String) (ans : Answers)
    (env : Env) (cfg : Config) (tr : List Effect) (c : Nat)
    (hh : helpFlag args = false)
    (hcc : collectConfig args ans = .ok cfg)
    (hgit : cfg.initGit = false)
    (hr : run args ans env = some (tr, c)) :
    ∀ e ∈ tr, isGitStep e = false := by
  obtain ⟨htr, _⟩ := run_ok_components args ans env cfg tr c hh hcc hr
  subst htr
  intro e he
  rcases mem_pipelineTrace cfg env e he with ⟨_, h⟩ | h | ⟨_, h⟩ |
    ⟨_, _, h⟩ | ⟨_, _, _, h⟩ | ⟨_, _, _, h⟩ | ⟨_, hg, _⟩ |
    ⟨_, _, h | ⟨_, h⟩⟩
  · subst h; rfl
  · subst h; rfl
  · subst h; rfl
  · subst h; rfl
  · subst h; rfl
  · subst h; rfl
  · rw [hg] at hgit
    cases hgit
  · subst h; rfl
  · subst h; rfl

/-- Witness for C6 with `--git=false` in non-interactive mode. -/
theorem no_git_steps_when_disabled_witness :
    isGitStep (Effect.clone "t") = false ∧
    ∀ e ∈ [Effect.mkdir "t", Effect.clone "t", Effect.writeReadme "t",
      Effect.writePackage "t" { name := "t", config := none, restFields := [] },
      Effect.npmInstall "t"], isGitStep e = false :=
  ⟨rfl,
    no_git_steps_when_disabled ["t", "--non-interactive", "--git=false"]
      sampleAnswers sampleEnv
      { themeName := "t", storeUrl := "", initGit := false,
        installDeps := true }
      [Effect.mkdir "t", Effect.clone "t", Effect.writeReadme "t",
        Effect.writePackage "t" { name := "t", config := none, restFields := [] },
        Effect.npmInstall "t"] 0 rfl rfl rfl rfl⟩

theorem promptStoreUrl_loop (pre : List String) (a : String)
    (rest : List String)
    (hpre : ∀ b ∈ pre, isInvalidStoreAnswer b = true)
    (ha : isInvalidStoreAnswer a = false) :
    promptStoreUrl (pre ++ a :: rest) =
      some (pre.length + 1,
        if jsTrim a == "" then defaultStore else jsTrim a) := by
  induction pre with
  | nil =>
    rw [List.nil_append]
    have ha' : (jsTrim a != "" && !(jsEndsWith (jsTrim a) storeSuffix))
        = false := ha
    simp only [promptStoreUrl, ha', Bool.false_eq_true, if_false,
      List.length_nil]
  | cons b pre ih =>
    have hb : (jsTrim b != "" && !(jsEndsWith (jsTrim b) storeSuffix))
        = true := hpre b (List.mem_cons_self b pre)
    have hpre' : ∀ x ∈ pre, isInvalidStoreAnswer x = true :=
      fun x hx => hpre x (List.mem_cons_of_mem b hx)
    rw [List.cons_append]
    simp only [promptStoreUrl, hb, if_true]
    rw [ih hpre']
    simp [Nat.add_comm]

/-- C7: the interactive store-URL prompt re-prompts once per answer that is
non-empty after trimming and lacks the `.myshopify.com` suffix; the final
store URL comes from the first answer that is empty after trimming —
replaced by the default `example-store.myshopify.com` — or ends with the
suffix; the theme-name prompt likewise substitutes its default on empty
input. -/
theorem interactive_prompts_validate_and_default (pre : List String)
    (a t : String) (rest : List String)
    (hpre : ∀ b ∈ pre, isInvalidStoreAnswer b = true)
    (ha : isInvalidStoreAnswer a = false)
    (ht : jsTrim t = "") :
    promptStoreUrl (pre ++ a :: rest) =
      some (pre.length + 1,
        if jsTrim a == "" then defaultStore else jsTrim a) ∧
    promptThemeName t = defaultTheme :=
  ⟨promptStoreUrl_loop pre a rest hpre ha, by simp [promptThemeName, ht]⟩

/-- Witness for C7: one invalid answer, then a whitespace-only answer that
takes the default store URL; a whitespace-only theme answer takes the
default theme name. -/
theorem interactive_prompts_validate_and_default_witness :
    promptStoreUrl (["bad-url"] ++ "  " :: []) =
      some (List.length ["bad-url"] + 1,
        if jsTrim "  " == "" then defaultStore else jsTrim "  ") ∧
    promptThemeName " " = defaultTheme :=
  interactive_prompts_validate_and_default ["bad-url"] "  " " " []
    (by decide) rfl rfl

/-- C8: with an empty (or whitespace-only) theme name answered at the
interactive prompt, every directory created is named exactly
`shopify-custom-theme`, and when the directory does not already exist one of
that name is indeed created. -/
theorem empty_theme_answer_creates_default_dir (args : List String)
    (ans : Answers) (env : Env) (tr : List Effect) (c : Nat)
    (hh : helpFlag args = false)
    (hni : args.contains "--non-interactive" = false)
    (hthe : jsTrim ans.themeAnswer = "")
    (hr : run args ans env = some (tr, c)) :
    (∀ d, Effect.mkdir d ∈ tr → d = defaultTheme) ∧
    (env.dirExists = false → Effect.mkdir defaultTheme ∈ tr) := by
  rcases run_some_cases args ans env tr c hr with ⟨hhc, _, _⟩ | ⟨_, hcc⟩ |
    ⟨_, cfg, hcc, htr, _⟩
  · rw [hhc] at hh
    cases hh
  · exact (collectConfig_interactive_not_fail args ans _ _ hni hcc).elim
  · obtain ⟨n, url, _, hcfg⟩ :=
      collectConfig_ok_interactive args ans cfg hni hcc
    have hname : cfg.themeName = defaultTheme := by
      rw [hcfg]
      simp [promptThemeName, hthe]
    subst htr
    constructor
    · intro d hd
      rcases mem_pipelineTrace cfg env _ hd with ⟨_, h⟩ | h | ⟨_, h⟩ |
        ⟨_, _, h⟩ | ⟨_, _, _, h⟩ | ⟨_, _, _, h⟩ |
        ⟨_, _, ⟨_, h⟩ | h | ⟨_, h⟩⟩ | ⟨_, _, h | ⟨_, h⟩⟩
      · injection h with h2
        exact h2.trans hname
      · simp at h
      · simp at h
      · simp at h
      · simp at h
      · simp at h
      · simp at h
      · simp at h
      · simp at h
      · simp at h
      · simp at h
    · intro hd
      rw [← hname]
      exact mkdir_mem_pipelineTrace cfg env hd

/-- Witness for C8: interactive run with a whitespace-only theme answer. -/
theorem empty_theme_answer_creates_default_dir_witness :
    (∀ d, Effect.mkdir d ∈
      [Effect.mkdir "shopify-custom-theme",
        Effect.clone "shopify-custom-theme",
        Effect.writeReadme "shopify-custom-theme",
        Effect.writePackage "shopify-custom-theme" { name := "shopify-custom-theme", config := some { shopifyStore := some "example-store.myshopify.com", restConfig := [] }, restFields := [] }] →
      d = defaultTheme) ∧
    (sampleEnv.dirExists = false →
      Effect.mkdir defaultTheme ∈
        [Effect.mkdir "shopify-custom-theme",
          Effect.clone "shopify-custom-theme",
          Effect.writeReadme "shopify-custom-theme",
          Effect.writePackage "shopify-custom-theme" { name := "shopify-custom-theme", config := some { shopifyStore := some "example-store.myshopify.com", restConfig := [] }, restFields := [] }]) :=
  empty_theme_answer_creates_default_dir [] emptyThemeAnswers sampleEnv
    [Effect.mkdir "shopify-custom-theme",
      Effect.clone "shopify-custom-theme",
      Effect.writeReadme "shopify-custom-theme",
      Effect.writePackage "shopify-custom-theme" { name := "shopify-custom-theme", config := some { shopifyStore := some "example-store.myshopify.com", restConfig := [] }, restFields := [] }]
    0 rfl rfl rfl rfl

/-- C9: the metadata rewrite is best-effort: a missing readme or manifest is
neither created nor written and produces no error; a manifest parse failure
is caught and reported without terminating the process, so the git and
install steps still run and the exit code stays 0. -/
theorem metadata_rewrite_best_effort (args : List String) (ans : Answers)
    (env : Env) (cfg : Config) (tr : List Effect) (c : Nat)
    (hh : helpFlag args = false)
    (hcc : collectConfig args ans = .ok cfg)
    (hcs : env.cloneSucceeds = true)
    (hr : run args ans env = some (tr, c)) :
    (env.readmeExists = false → ∀ d, Effect.writeReadme d ∉ tr) ∧
    (env.packageExists = false →
      (∀ d m, Effect.writePackage d m ∉ tr) ∧ Effect.rewriteFailed ∉ tr) ∧
    (env.packageExists = true → env.packageParses = false →
      Effect.rewriteFailed ∈ tr ∧ c = 0 ∧
      (cfg.initGit = true → Effect.gitInit cfg.themeName ∈ tr) ∧
      (cfg.installDeps = true → Effect.npmInstall cfg.themeName ∈ tr)) := by
  obtain ⟨htr, hcode⟩ := run_ok_components args ans env cfg tr c hh hcc hr
  subst htr
  refine ⟨?_, ?_, ?_⟩
  · intro hre d hd
    have hcases := mem_pipelineTrace cfg env _ hd
    simp [hre] at hcases
  · intro hpe
    constructor
    · intro d m hd
      have hcases := mem_pipelineTrace cfg env _ hd
      simp [hpe] at hcases
    · intro hd
      have hcases := mem_pipelineTrace cfg env _ hd
      simp [hpe] at hcases
  · intro hpe hpp
    exact ⟨rewriteFailed_mem_pipelineTrace cfg env hcs hpe hpp,
      hcode.trans (pipelineExit_success env hcs),
      fun hg => gitInit_mem_pipelineTrace cfg env hcs hg,
      fun hi => npmInstall_mem_pipelineTrace cfg env hcs hi⟩

/-- Witness for C9: `package.json` exists but does not parse; the failure is
reported, the exit code is 0, and the git and install effects still occur. -/
theorem metadata_rewrite_best_effort_witness :
    (noParseEnv.readmeExists = false → ∀ d, Effect.writeReadme d ∉
      [Effect.mkdir "t", Effect.clone "t", Effect.writeReadme "t",
        Effect.rewriteFailed, Effect.removeGitDir "t", Effect.gitInit "t",
        Effect.npmInstall "t"]) ∧
    (noParseEnv.packageExists = false →
      (∀ d m, Effect.writePackage d m ∉
        [Effect.mkdir "t", Effect.clone "t", Effect.writeReadme "t",
          Effect.rewriteFailed, Effect.removeGitDir "t", Effect.gitInit "t",
          Effect.npmInstall "t"]) ∧
      Effect.rewriteFailed ∉
        [Effect.mkdir "t", Effect.clone "t", Effect.writeReadme "t",
          Effect.rewriteFailed, Effect.removeGitDir "t", Effect.gitInit "t",
          Effect.npmInstall "t"]) ∧
    (noParseEnv.packageExists = true → noParseEnv.packageParses = false →
      Effect.rewriteFailed ∈
        [Effect.mkdir "t", Effect.clone "t", Effect.writeReadme "t",
          Effect.rewriteFailed, Effect.removeGitDir "t", Effect.gitInit "t",
          Effect.npmInstall "t"] ∧ (0 : Nat) = 0 ∧
      (true = true → Effect.gitInit "t" ∈
        [Effect.mkdir "t", Effect.clone "t", Effect.writeReadme "t",
          Effect.rewriteFailed, Effect.removeGitDir "t", Effect.gitInit "t",
          Effect.npmInstall "t"]) ∧
      (true = true → Effect.npmInstall "t" ∈
        [Effect.mkdir "t", Effect.clone "t", Effect.writeReadme "t",
          Effect.rewriteFailed, Effect.removeGitDir "t", Effect.gitInit "t",
          Effect.npmInstall "t"])) :=
  metadata_rewrite_best_effort ["t", "--non-interactive"] sampleAnswers
    noParseEnv
    { themeName := "t", storeUrl := "", initGit := true, installDeps := true }
    [Effect.mkdir "t", Effect.clone "t", Effect.writeReadme "t",
      Effect.rewriteFailed, Effect.removeGitDir "t", Effect.gitInit "t",
      Effect.npmInstall "t"] 0 rfl rfl rfl rfl

/-- C10: in interactive mode the git flag and the install flag are each true
iff the trimmed, lowercased answer to the corresponding Y/n prompt is not
exactly `n`; answers such as `no` or `false` therefore enable the step. -/
theorem yn_flags_true_iff_not_n (args : List String) (ans : Answers)
    (cfg : Config)
    (hni : args.contains "--non-interactive" = false)
    (hcc : collectConfig args ans = .ok cfg) :
    (cfg.initGit = true ↔ jsToLower (jsTrim ans.gitAnswer) ≠ "n") ∧
    (cfg.installDeps = true ↔ jsToLower (jsTrim ans.installAnswer) ≠ "n") ∧
    parseYesNo "no" = true ∧ parseYesNo "false" = true := by
  obtain ⟨n, url, _, hcfg⟩ := collectConfig_ok_interactive args ans cfg hni hcc
  subst hcfg
  refine ⟨?_, ?_, by decide, by decide⟩
  · simp [parseYesNo, bne_iff_ne]
  · simp [parseYesNo, bne_iff_ne]

/-- Witness for C10: answer `no` to the git prompt (flag stays true) and
` N ` to the install prompt (flag becomes false). -/
theorem yn_flags_true_iff_not_n_witness :
    ((true : Bool) = true ↔ jsToLower (jsTrim ynAnswers.gitAnswer) ≠ "n") ∧
    ((false : Bool) = true ↔
      jsToLower (jsTrim ynAnswers.installAnswer) ≠ "n") ∧
    parseYesNo "no" = true ∧ parseYesNo "false" = true :=
  yn_flags_true_iff_not_n ["x"] ynAnswers
    { themeName := "t", storeUrl := "example-store.myshopify.com",
      initGit := true, installDeps := false }
    rfl rfl

end CreateVapor
